import Mathlib

/-!
Verification of the club-net permission layer (`src/backend/api/permissions.py`).

The module consists of nine `BasePermission` subclasses whose
`has_object_permission(self, request, view, obj)` methods decide object-level
access from the request method, the requesting user, the target object and the
`ClubMembership` table.  We embed the relevant data model shallowly: the
membership table is a list of rows, each ORM call
`ClubMembership.objects.filter(...).exists()` becomes a decidable existence
check over that list, and every permission method becomes a Lean function of
the database, the HTTP method, the requesting user and the object.
Foreign-key and model comparisons in Django compare primary keys, so all row
comparisons below are by `id` fields.
-/

namespace ClubNet

/-- The REST framework safe methods tuple ("GET", "HEAD", "OPTIONS"). -/
def SAFE_METHODS : List String := ["GET", "HEAD", "OPTIONS"]

/-- A user row: primary key and the Django superuser flag. -/
structure User where
  id : Nat
  is_superuser : Bool
  deriving DecidableEq

/-- Django model equality compares primary keys, so `obj == request.user`
in the source is primary-key equality. -/
def User.beq (a b : User) : Bool := a.id == b.id

/-- A club row: primary key only (no other field is consulted). -/
structure Club where
  id : Nat
  deriving DecidableEq

/-- A club role: the club it belongs to and its privilege string
(one of a small closed set, e.g. `REP` or `MEM`). -/
structure ClubRole where
  club : Club
  privilege : String
  deriving DecidableEq

/-- A `ClubMembership` row links a user (by id) to a club role.  The ORM
lookups `user__id`, `club_role__club`, `club_role__privilege` traverse
exactly these fields. -/
structure ClubMembership where
  user_id : Nat
  club_role : ClubRole
  deriving DecidableEq

/-- The database state the permission module reads: the `ClubMembership`
table. -/
abbrev DB := List ClubMembership

/-- A channel belongs to a club (`obj.channel.club`). -/
structure Channel where
  club : Club
  deriving DecidableEq

/-- A post belongs to a channel. -/
structure Post where
  channel : Channel
  deriving DecidableEq

/-- A conversation belongs to a channel. -/
structure Conversation where
  channel : Channel
  deriving DecidableEq

/-- A feedback has an author and a club. -/
structure Feedback where
  author : User
  club : Club
  deriving DecidableEq

/-- A feedback reply points to its parent feedback. -/
structure FeedbackReply where
  parent : Feedback
  deriving DecidableEq

/-- A project is associated with a set of clubs (`obj.clubs.all()`). -/
structure Project where
  clubs : List Club
  deriving DecidableEq

/-- Helper `is_secretary`: returns `user_obj.is_superuser`. -/
def is_secretary (user_obj : User) : Bool := user_obj.is_superuser

/-- Query `ClubMembership.objects.filter(user__id=uid, club_role__club=c).exists()`. -/
def membershipExists (db : DB) (uid : Nat) (c : Club) : Bool :=
  db.any fun m => m.user_id == uid && m.club_role.club.id == c.id

/-- Query for a representative membership: filter on user id, on the club
and on privilege "REP", then call `exists`. -/
def repMembershipExists (db : DB) (uid : Nat) (c : Club) : Bool :=
  db.any fun m => m.user_id == uid && m.club_role.club.id == c.id &&
    m.club_role.privilege == "REP"

/-- Query with a club__in constraint: filter on user id and on the club
being one of the clubs in `cs`, then call `exists`. -/
def membershipInExists (db : DB) (uid : Nat) (cs : List Club) : Bool :=
  db.any fun m => m.user_id == uid && cs.any (fun c => m.club_role.club.id == c.id)

/-- Query with a club__in constraint and privilege "REP", then `exists`. -/
def repMembershipInExists (db : DB) (uid : Nat) (cs : List Club) : Bool :=
  db.any fun m => m.user_id == uid && cs.any (fun c => m.club_role.club.id == c.id) &&
    m.club_role.privilege == "REP"

/-- Permission `IsRepOrReadOnlyPost`: read allowed to everyone;
write only to a representative of the club owning the channel of the post. -/
def IsRepOrReadOnlyPost.has_object_permission
    (db : DB) (method : String) (user : User) (obj : Post) : Bool :=
  if SAFE_METHODS.contains method then
    true
  else
    repMembershipExists db user.id obj.channel.club

/-- Permission `IsClubMemberReadOnlyConversation`: read allowed
only to members of the club of the channel; write denied to everyone. -/
def IsClubMemberReadOnlyConversation.has_object_permission
    (db : DB) (method : String) (user : User) (obj : Conversation) : Bool :=
  if SAFE_METHODS.contains method then
    membershipExists db user.id obj.channel.club
  else
    false

/-- Permission `IsSelfOrReadOnlyUser`: read allowed to everyone;
write only when `obj == request.user`. -/
def IsSelfOrReadOnlyUser.has_object_permission
    (db : DB) (method : String) (user : User) (obj : User) : Bool :=
  if SAFE_METHODS.contains method then
    true
  else
    User.beq obj user

/-- Permission `IsSecyOrRepOrReadOnlyClub`: read allowed to
everyone; `DELETE` only to a secretary; other writes to a secretary or a
representative of the club. -/
def IsSecyOrRepOrReadOnlyClub.has_object_permission
    (db : DB) (method : String) (user : User) (obj : Club) : Bool :=
  if SAFE_METHODS.contains method then
    true
  else if method == "DELETE" then
    is_secretary user
  else
    is_secretary user || repMembershipExists db user.id obj

/-- Permission `IsRepClubRole`: every method only for a
representative of `obj.club`. -/
def IsRepClubRole.has_object_permission
    (db : DB) (method : String) (user : User) (obj : ClubRole) : Bool :=
  repMembershipExists db user.id obj.club

/-- Permission `IsRepClubMembership`: every method only for a
representative of `obj.club_role.club`. -/
def IsRepClubMembership.has_object_permission
    (db : DB) (method : String) (user : User) (obj : ClubMembership) : Bool :=
  repMembershipExists db user.id obj.club_role.club

/-- Permission `IsSecyOrRepOrAuthorFeedback`: read only for the
author, a secretary, or a representative of the club of the feedback; write
denied to everyone. -/
def IsSecyOrRepOrAuthorFeedback.has_object_permission
    (db : DB) (method : String) (user : User) (obj : Feedback) : Bool :=
  if SAFE_METHODS.contains method then
    User.beq obj.author user || is_secretary user ||
      repMembershipExists db user.id obj.club
  else
    false

/-- Permission `IsSecyOrRepOrAuthorFeedbackReply`: read only for
the author of the parent feedback, a secretary, or a representative of the
club of the parent feedback; write denied to everyone. -/
def IsSecyOrRepOrAuthorFeedbackReply.has_object_permission
    (db : DB) (method : String) (user : User) (obj : FeedbackReply) : Bool :=
  if SAFE_METHODS.contains method then
    User.beq obj.parent.author user || is_secretary user ||
      repMembershipExists db user.id obj.parent.club
  else
    false

/-- Permission `IsRepOrSecyAndClubMemberReadOnlyProject`: read
for a secretary or a member of any club associated with the project; write
only for a representative of one of those clubs. -/
def IsRepOrSecyAndClubMemberReadOnlyProject.has_object_permission
    (db : DB) (method : String) (user : User) (obj : Project) : Bool :=
  if SAFE_METHODS.contains method then
    is_secretary user || membershipInExists db user.id obj.clubs
  else
    repMembershipInExists db user.id obj.clubs

/-!
State-passing embedding.  Each ORM call `filter(...).exists()` issues a read
query: it returns a boolean computed from the current table and leaves the
table as it was.  The functions below thread the database state through every
query the source methods perform, so that the effect of an evaluation on the
stored rows can be stated.
-/

/-- A read query on the membership table: returns the `exists` answer and the
table after the query ran. -/
def existsQuery (p : ClubMembership → Bool) (db : DB) : Bool × DB :=
  (db.any p, db)

/-- State-passing version of `IsRepOrReadOnlyPost.has_object_permission`. -/
def IsRepOrReadOnlyPost.run
    (method : String) (user : User) (obj : Post) (db : DB) : Bool × DB :=
  if SAFE_METHODS.contains method then
    (true, db)
  else
    existsQuery (fun m => m.user_id == user.id &&
      m.club_role.club.id == obj.channel.club.id &&
      m.club_role.privilege == "REP") db

/-- State-passing version of
`IsClubMemberReadOnlyConversation.has_object_permission`. -/
def IsClubMemberReadOnlyConversation.run
    (method : String) (user : User) (obj : Conversation) (db : DB) : Bool × DB :=
  if SAFE_METHODS.contains method then
    existsQuery (fun m => m.user_id == user.id &&
      m.club_role.club.id == obj.channel.club.id) db
  else
    (false, db)

/-- State-passing version of `IsSelfOrReadOnlyUser.has_object_permission`
(no query is issued at all). -/
def IsSelfOrReadOnlyUser.run
    (method : String) (user : User) (obj : User) (db : DB) : Bool × DB :=
  if SAFE_METHODS.contains method then
    (true, db)
  else
    (User.beq obj user, db)

/-- State-passing version of `IsSecyOrRepOrReadOnlyClub.has_object_permission`. -/
def IsSecyOrRepOrReadOnlyClub.run
    (method : String) (user : User) (obj : Club) (db : DB) : Bool × DB :=
  if SAFE_METHODS.contains method then
    (true, db)
  else if method == "DELETE" then
    (is_secretary user, db)
  else if is_secretary user then
    (true, db)
  else
    existsQuery (fun m => m.user_id == user.id &&
      m.club_role.club.id == obj.id &&
      m.club_role.privilege == "REP") db

/-- State-passing version of `IsRepClubRole.has_object_permission`. -/
def IsRepClubRole.run
    (method : String) (user : User) (obj : ClubRole) (db : DB) : Bool × DB :=
  existsQuery (fun m => m.user_id == user.id &&
    m.club_role.club.id == obj.club.id &&
    m.club_role.privilege == "REP") db

/-- State-passing version of `IsRepClubMembership.has_object_permission`. -/
def IsRepClubMembership.run
    (method : String) (user : User) (obj : ClubMembership) (db : DB) : Bool × DB :=
  existsQuery (fun m => m.user_id == user.id &&
    m.club_role.club.id == obj.club_role.club.id &&
    m.club_role.privilege == "REP") db

/-- State-passing version of
`IsSecyOrRepOrAuthorFeedback.has_object_permission`. -/
def IsSecyOrRepOrAuthorFeedback.run
    (method : String) (user : User) (obj : Feedback) (db : DB) : Bool × DB :=
  if SAFE_METHODS.contains method then
    if User.beq obj.author user || is_secretary user then
      (true, db)
    else
      existsQuery (fun m => m.user_id == user.id &&
        m.club_role.club.id == obj.club.id &&
        m.club_role.privilege == "REP") db
  else
    (false, db)

/-- State-passing version of
`IsSecyOrRepOrAuthorFeedbackReply.has_object_permission`. -/
def IsSecyOrRepOrAuthorFeedbackReply.run
    (method : String) (user : User) (obj : FeedbackReply) (db : DB) : Bool × DB :=
  if SAFE_METHODS.contains method then
    if User.beq obj.parent.author user || is_secretary user then
      (true, db)
    else
      existsQuery (fun m => m.user_id == user.id &&
        m.club_role.club.id == obj.parent.club.id &&
        m.club_role.privilege == "REP") db
  else
    (false, db)

/-- State-passing version of
`IsRepOrSecyAndClubMemberReadOnlyProject.has_object_permission`. -/
def IsRepOrSecyAndClubMemberReadOnlyProject.run
    (method : String) (user : User) (obj : Project) (db : DB) : Bool × DB :=
  if SAFE_METHODS.contains method then
    if is_secretary user then
      (true, db)
    else
      existsQuery (fun m => m.user_id == user.id &&
        obj.clubs.any (fun c => m.club_role.club.id == c.id)) db
  else
    existsQuery (fun m => m.user_id == user.id &&
      obj.clubs.any (fun c => m.club_role.club.id == c.id) &&
      m.club_role.privilege == "REP") db

/-!
Concrete fixtures used by witness and counterexample theorems.
-/

/-- A plain user (not a superuser). -/
def u0 : User := ⟨1, false⟩

/-- A secretary: the superuser flag is set. -/
def uSecy : User := ⟨2, true⟩

/-- Another plain user, used as a feedback author. -/
def u3 : User := ⟨3, false⟩

/-- A club. -/
def club0 : Club := ⟨10⟩

/-- A second club. -/
def club1 : Club := ⟨11⟩

/-- An ordinary-member role of `club0`. -/
def roleMem : ClubRole := ⟨club0, "MEM"⟩

/-- The representative role of `club0`. -/
def roleRep : ClubRole := ⟨club0, "REP"⟩

/-- Membership row: `u0` is an ordinary member of `club0`. -/
def mMem : ClubMembership := ⟨1, roleMem⟩

/-- Membership row: `u0` is a representative of `club0`. -/
def mRep : ClubMembership := ⟨1, roleRep⟩

/-- A channel of `club0`. -/
def chan0 : Channel := ⟨club0⟩

/-- A post in `chan0`. -/
def post0 : Post := ⟨chan0⟩

/-- A conversation in `chan0`. -/
def conv0 : Conversation := ⟨chan0⟩

/-- A feedback authored by `u3` for `club0`. -/
def fb0 : Feedback := ⟨u3, club0⟩

/-- A reply to `fb0`. -/
def reply0 : FeedbackReply := ⟨fb0⟩

/-- A project associated with `club0` and `club1`. -/
def proj0 : Project := ⟨[club0, club1]⟩

/-- Membership row of an unrelated user (id 5), used to vary the database on
rows the permission checks never read. -/
def mOther : ClubMembership := ⟨5, roleRep⟩

/-!
Shapes of decision functions, used to state the claim that every write
decision is a disjunction of membership-existence checks.
-/

/-- Shape of one ORM membership-existence check against (user, club, role)
rows: a user id, a club constraint (a single club or a club__in list) and an
optional privilege constraint. -/
structure MemQuery where
  uid : Nat
  clubs : List Club
  priv : Option String
  deriving DecidableEq

/-- Evaluate a membership-existence check against the membership table. -/
def MemQuery.eval (q : MemQuery) (db : DB) : Bool :=
  db.any fun m => m.user_id == q.uid &&
    q.clubs.any (fun c => m.club_role.club.id == c.id) &&
    (match q.priv with
     | none => true
     | some p => m.club_role.privilege == p)

/-- A decision function (the permission result for a fixed request, user and
object, as a function of the database) that is a disjunction of one or two
membership-existence checks. -/
def isMembershipDisjunction (f : DB → Bool) : Prop :=
  ∃ qs : List MemQuery, 1 ≤ qs.length ∧ qs.length ≤ 2 ∧
    ∀ db, f db = qs.any (fun q => q.eval db)

/-- An atom of a write decision: a membership-existence check, a secretary
(superuser-flag) check, or an identity comparison of two users. -/
inductive DecisionAtom where
  | memCheck : MemQuery → DecisionAtom
  | secyCheck : User → DecisionAtom
  | selfCheck : User → User → DecisionAtom
  deriving DecidableEq

/-- Evaluate a decision atom against the membership table. -/
def DecisionAtom.eval : DecisionAtom → DB → Bool
  | .memCheck q, db => q.eval db
  | .secyCheck u, _ => is_secretary u
  | .selfCheck a b, _ => User.beq a b

/-- A decision function that is a disjunction of at most two atoms. -/
def isAtomDisjunction (f : DB → Bool) : Prop :=
  ∃ atoms : List DecisionAtom, atoms.length ≤ 2 ∧
    ∀ db, f db = atoms.any (fun a => a.eval db)

/-- True when the table holds any row at all with privilege "REP". -/
def hasAnyRepRow (db : DB) : Bool :=
  db.any fun m => m.club_role.privilege == "REP"

/-- The write decision of `IsSelfOrReadOnlyUser` for `u0` editing `u0`, as a
function of the database. -/
def selfWriteDecision (db : DB) : Bool :=
  IsSelfOrReadOnlyUser.has_object_permission db "PUT" u0 u0

/-- The write decision of `IsRepOrReadOnlyPost` for `u0` and `post0`, as a
function of the database. -/
def postWriteDecision (db : DB) : Bool :=
  IsRepOrReadOnlyPost.has_object_permission db "PUT" u0 post0

/-!
Helper lemmas.
-/

/-- Two booleans are equal when their truth values are equivalent. -/
lemma bool_eq_of_iff {a b : Bool} (h : a = true ↔ b = true) : a = b := by
  cases a <;> cases b <;> simp_all

/-- Clubs are equal when their primary keys are. -/
lemma Club.eq_of_id {a b : Club} (h : a.id = b.id) : a = b := by
  cases a; cases b; cases h; rfl

/-- Existence checks are monotone in the row set. -/
lemma any_mono_mem {p : ClubMembership → Bool} {db1 db2 : DB}
    (h : ∀ m, m ∈ db1 → m ∈ db2) : db1.any p = true → db2.any p = true := by
  simp only [List.any_eq_true]
  rintro ⟨m, hm, hpm⟩
  exact ⟨m, h m hm, hpm⟩

/-- An existence check only reads the rows its predicate can accept: two
tables agreeing on all rows satisfying `R` give the same answer whenever the
predicate implies `R`. -/
lemma any_congr_relevant (R : ClubMembership → Prop) {p : ClubMembership → Bool}
    (hpR : ∀ m, p m = true → R m) {db1 db2 : DB}
    (h : ∀ m, R m → (m ∈ db1 ↔ m ∈ db2)) : db1.any p = db2.any p := by
  apply bool_eq_of_iff
  simp only [List.any_eq_true]
  constructor
  · rintro ⟨m, hm, hpm⟩
    exact ⟨m, (h m (hpR m hpm)).mp hm, hpm⟩
  · rintro ⟨m, hm, hpm⟩
    exact ⟨m, (h m (hpR m hpm)).mpr hm, hpm⟩

/-- A single-club query with privilege "REP" evaluates to
`repMembershipExists`. -/
lemma MemQuery.eval_single_rep (uid : Nat) (c : Club) (db : DB) :
    MemQuery.eval ⟨uid, [c], some "REP"⟩ db = repMembershipExists db uid c := by
  unfold MemQuery.eval repMembershipExists
  congr 1
  funext m
  simp

/-- A single-club query without privilege constraint evaluates to
`membershipExists`. -/
lemma MemQuery.eval_single_any (uid : Nat) (c : Club) (db : DB) :
    MemQuery.eval ⟨uid, [c], none⟩ db = membershipExists db uid c := by
  unfold MemQuery.eval membershipExists
  congr 1
  funext m
  simp

/-- A club__in query with privilege "REP" evaluates to
`repMembershipInExists`. -/
lemma MemQuery.eval_multi_rep (uid : Nat) (cs : List Club) (db : DB) :
    MemQuery.eval ⟨uid, cs, some "REP"⟩ db = repMembershipInExists db uid cs := by
  unfold MemQuery.eval repMembershipInExists
  congr 1

/-- A club__in query without privilege constraint evaluates to
`membershipInExists`. -/
lemma MemQuery.eval_multi_any (uid : Nat) (cs : List Club) (db : DB) :
    MemQuery.eval ⟨uid, cs, none⟩ db = membershipInExists db uid cs := by
  unfold MemQuery.eval membershipInExists
  congr 1
  funext m
  simp

/-- Monotonicity of `membershipExists` in the row set. -/
lemma membershipExists_mono {db1 db2 : DB} {uid : Nat} {c : Club}
    (h : ∀ m, m ∈ db1 → m ∈ db2) :
    membershipExists db1 uid c = true → membershipExists db2 uid c = true :=
  any_mono_mem h

/-- Monotonicity of `repMembershipExists` in the row set. -/
lemma repMembershipExists_mono {db1 db2 : DB} {uid : Nat} {c : Club}
    (h : ∀ m, m ∈ db1 → m ∈ db2) :
    repMembershipExists db1 uid c = true → repMembershipExists db2 uid c = true :=
  any_mono_mem h

/-- Monotonicity of `membershipInExists` in the row set. -/
lemma membershipInExists_mono {db1 db2 : DB} {uid : Nat} {cs : List Club}
    (h : ∀ m, m ∈ db1 → m ∈ db2) :
    membershipInExists db1 uid cs = true → membershipInExists db2 uid cs = true :=
  any_mono_mem h

/-- Monotonicity of `repMembershipInExists` in the row set. -/
lemma repMembershipInExists_mono {db1 db2 : DB} {uid : Nat} {cs : List Club}
    (h : ∀ m, m ∈ db1 → m ∈ db2) :
    repMembershipInExists db1 uid cs = true → repMembershipInExists db2 uid cs = true :=
  any_mono_mem h

/-- The state-passing versions compute the same boolean as the direct
translations, class by class. -/
lemma run_fst_eq_has_object_permission :
    (∀ (method : String) (u : User) (obj : Post) (db : DB),
      (IsRepOrReadOnlyPost.run method u obj db).1 =
        IsRepOrReadOnlyPost.has_object_permission db method u obj) ∧
    (∀ (method : String) (u : User) (obj : Conversation) (db : DB),
      (IsClubMemberReadOnlyConversation.run method u obj db).1 =
        IsClubMemberReadOnlyConversation.has_object_permission db method u obj) ∧
    (∀ (method : String) (u : User) (obj : User) (db : DB),
      (IsSelfOrReadOnlyUser.run method u obj db).1 =
        IsSelfOrReadOnlyUser.has_object_permission db method u obj) ∧
    (∀ (method : String) (u : User) (obj : Club) (db : DB),
      (IsSecyOrRepOrReadOnlyClub.run method u obj db).1 =
        IsSecyOrRepOrReadOnlyClub.has_object_permission db method u obj) ∧
    (∀ (method : String) (u : User) (obj : ClubRole) (db : DB),
      (IsRepClubRole.run method u obj db).1 =
        IsRepClubRole.has_object_permission db method u obj) ∧
    (∀ (method : String) (u : User) (obj : ClubMembership) (db : DB),
      (IsRepClubMembership.run method u obj db).1 =
        IsRepClubMembership.has_object_permission db method u obj) ∧
    (∀ (method : String) (u : User) (obj : Feedback) (db : DB),
      (IsSecyOrRepOrAuthorFeedback.run method u obj db).1 =
        IsSecyOrRepOrAuthorFeedback.has_object_permission db method u obj) ∧
    (∀ (method : String) (u : User) (obj : FeedbackReply) (db : DB),
      (IsSecyOrRepOrAuthorFeedbackReply.run method u obj db).1 =
        IsSecyOrRepOrAuthorFeedbackReply.has_object_permission db method u obj) ∧
    (∀ (method : String) (u : User) (obj : Project) (db : DB),
      (IsRepOrSecyAndClubMemberReadOnlyProject.run method u obj db).1 =
        IsRepOrSecyAndClubMemberReadOnlyProject.has_object_permission db method u obj) := by
  refine ⟨?_, ?_, ?_, ?_, ?_, ?_, ?_, ?_, ?_⟩ <;> intro method u obj db <;>
    simp only [IsRepOrReadOnlyPost.run, IsClubMemberReadOnlyConversation.run,
      IsSelfOrReadOnlyUser.run, IsSecyOrRepOrReadOnlyClub.run, IsRepClubRole.run,
      IsRepClubMembership.run, IsSecyOrRepOrAuthorFeedback.run,
      IsSecyOrRepOrAuthorFeedbackReply.run, IsRepOrSecyAndClubMemberReadOnlyProject.run,
      IsRepOrReadOnlyPost.has_object_permission,
      IsClubMemberReadOnlyConversation.has_object_permission,
      IsSelfOrReadOnlyUser.has_object_permission,
      IsSecyOrRepOrReadOnlyClub.has_object_permission,
      IsRepClubRole.has_object_permission,
      IsRepClubMembership.has_object_permission,
      IsSecyOrRepOrAuthorFeedback.has_object_permission,
      IsSecyOrRepOrAuthorFeedbackReply.has_object_permission,
      IsRepOrSecyAndClubMemberReadOnlyProject.has_object_permission,
      existsQuery, membershipExists, repMembershipExists, membershipInExists,
      repMembershipInExists]
  all_goals repeat' split
  all_goals simp_all

/-- C7: evaluating any permission class leaves the membership table exactly
as it was, for every method, user, object and database state. -/
theorem c7_evaluation_preserves_database :
    (∀ (method : String) (u : User) (obj : Post) (db : DB),
      (IsRepOrReadOnlyPost.run method u obj db).2 = db) ∧
    (∀ (method : String) (u : User) (obj : Conversation) (db : DB),
      (IsClubMemberReadOnlyConversation.run method u obj db).2 = db) ∧
    (∀ (method : String) (u : User) (obj : User) (db : DB),
      (IsSelfOrReadOnlyUser.run method u obj db).2 = db) ∧
    (∀ (method : String) (u : User) (obj : Club) (db : DB),
      (IsSecyOrRepOrReadOnlyClub.run method u obj db).2 = db) ∧
    (∀ (method : String) (u : User) (obj : ClubRole) (db : DB),
      (IsRepClubRole.run method u obj db).2 = db) ∧
    (∀ (method : String) (u : User) (obj : ClubMembership) (db : DB),
      (IsRepClubMembership.run method u obj db).2 = db) ∧
    (∀ (method : String) (u : User) (obj : Feedback) (db : DB),
      (IsSecyOrRepOrAuthorFeedback.run method u obj db).2 = db) ∧
    (∀ (method : String) (u : User) (obj : FeedbackReply) (db : DB),
      (IsSecyOrRepOrAuthorFeedbackReply.run method u obj db).2 = db) ∧
    (∀ (method : String) (u : User) (obj : Project) (db : DB),
      (IsRepOrSecyAndClubMemberReadOnlyProject.run method u obj db).2 = db) := by
  refine ⟨?_, ?_, ?_, ?_, ?_, ?_, ?_, ?_, ?_⟩ <;> intro method u obj db <;>
    simp only [IsRepOrReadOnlyPost.run, IsClubMemberReadOnlyConversation.run,
      IsSelfOrReadOnlyUser.run, IsSecyOrRepOrReadOnlyClub.run, IsRepClubRole.run,
      IsRepClubMembership.run, IsSecyOrRepOrAuthorFeedback.run,
      IsSecyOrRepOrAuthorFeedbackReply.run, IsRepOrSecyAndClubMemberReadOnlyProject.run,
      existsQuery]
  all_goals repeat' split
  all_goals rfl

/-- C3: for feedback and feedback-reply objects, a safe-method request is
permitted exactly when the requesting user is the author of the (parent)
feedback, a secretary, or holds a "REP" membership in the club of the
feedback; and every non-safe-method request is denied for every user. -/
theorem c3_feedback_read_only_author_secy_rep :
    (∀ method, SAFE_METHODS.contains method = true →
      ∀ (db : DB) (u : User) (obj : Feedback),
        (IsSecyOrRepOrAuthorFeedback.has_object_permission db method u obj = true ↔
          (User.beq obj.author u = true ∨ is_secretary u = true ∨
            repMembershipExists db u.id obj.club = true))) ∧
    (∀ method, SAFE_METHODS.contains method = false →
      ∀ (db : DB) (u : User) (obj : Feedback),
        IsSecyOrRepOrAuthorFeedback.has_object_permission db method u obj = false) ∧
    (∀ method, SAFE_METHODS.contains method = true →
      ∀ (db : DB) (u : User) (obj : FeedbackReply),
        (IsSecyOrRepOrAuthorFeedbackReply.has_object_permission db method u obj = true ↔
          (User.beq obj.parent.author u = true ∨ is_secretary u = true ∨
            repMembershipExists db u.id obj.parent.club = true))) ∧
    (∀ method, SAFE_METHODS.contains method = false →
      ∀ (db : DB) (u : User) (obj : FeedbackReply),
        IsSecyOrRepOrAuthorFeedbackReply.has_object_permission db method u obj = false) := by
  refine ⟨?_, ?_, ?_, ?_⟩ <;> intro method h db u obj <;> simp at h <;>
    simp [IsSecyOrRepOrAuthorFeedback.has_object_permission,
      IsSecyOrRepOrAuthorFeedbackReply.has_object_permission, h, or_assoc]

/-- Witness for C3 at concrete inputs: `u0` holds the "REP" role of `club0`,
reads and writes `fb0` and `reply0`. -/
theorem c3_feedback_read_only_author_secy_rep_witness :
    (IsSecyOrRepOrAuthorFeedback.has_object_permission [mRep] "GET" u0 fb0 = true ↔
      (User.beq fb0.author u0 = true ∨ is_secretary u0 = true ∨
        repMembershipExists [mRep] u0.id fb0.club = true)) ∧
    IsSecyOrRepOrAuthorFeedback.has_object_permission [mRep] "POST" u0 fb0 = false ∧
    (IsSecyOrRepOrAuthorFeedbackReply.has_object_permission [mRep] "GET" u0 reply0 = true ↔
      (User.beq reply0.parent.author u0 = true ∨ is_secretary u0 = true ∨
        repMembershipExists [mRep] u0.id reply0.parent.club = true)) ∧
    IsSecyOrRepOrAuthorFeedbackReply.has_object_permission [mRep] "POST" u0 reply0 = false :=
  ⟨c3_feedback_read_only_author_secy_rep.1 "GET" (by decide) [mRep] u0 fb0,
   c3_feedback_read_only_author_secy_rep.2.1 "POST" (by decide) [mRep] u0 fb0,
   c3_feedback_read_only_author_secy_rep.2.2.1 "GET" (by decide) [mRep] u0 reply0,
   c3_feedback_read_only_author_secy_rep.2.2.2 "POST" (by decide) [mRep] u0 reply0⟩

/-- C4: a project is readable exactly by a secretary or a member of at least
one associated club, and writable exactly by a holder of a "REP" membership
in at least one associated club. -/
theorem c4_project_read_member_write_rep :
    (∀ method, SAFE_METHODS.contains method = true →
      ∀ (db : DB) (u : User) (obj : Project),
        (IsRepOrSecyAndClubMemberReadOnlyProject.has_object_permission db method u obj = true ↔
          (is_secretary u = true ∨ membershipInExists db u.id obj.clubs = true))) ∧
    (∀ method, SAFE_METHODS.contains method = false →
      ∀ (db : DB) (u : User) (obj : Project),
        (IsRepOrSecyAndClubMemberReadOnlyProject.has_object_permission db method u obj = true ↔
          repMembershipInExists db u.id obj.clubs = true)) := by
  refine ⟨?_, ?_⟩ <;> intro method h db u obj <;> simp at h <;>
    simp [IsRepOrSecyAndClubMemberReadOnlyProject.has_object_permission, h]

/-- Witness for C4 at concrete inputs: `u0` is an ordinary member of
`club0`, one of the clubs of `proj0`. -/
theorem c4_project_read_member_write_rep_witness :
    (IsRepOrSecyAndClubMemberReadOnlyProject.has_object_permission [mMem] "GET" u0 proj0 = true ↔
      (is_secretary u0 = true ∨ membershipInExists [mMem] u0.id proj0.clubs = true)) ∧
    (IsRepOrSecyAndClubMemberReadOnlyProject.has_object_permission [mMem] "PUT" u0 proj0 = true ↔
      repMembershipInExists [mMem] u0.id proj0.clubs = true) :=
  ⟨c4_project_read_member_write_rep.1 "GET" (by decide) [mMem] u0 proj0,
   c4_project_read_member_write_rep.2 "PUT" (by decide) [mMem] u0 proj0⟩

/-- C9: every non-safe-method request on a conversation is denied, for every
user (secretaries and representatives included) and every database state. -/
theorem c9_conversation_write_always_denied :
    ∀ method, SAFE_METHODS.contains method = false →
      ∀ (db : DB) (u : User) (obj : Conversation),
        IsClubMemberReadOnlyConversation.has_object_permission db method u obj = false := by
  intro method h db u obj
  simp at h
  simp [IsClubMemberReadOnlyConversation.has_object_permission, h]

/-- Witness for C9: even the secretary, with a "REP" row present in the
table, cannot POST to a conversation. -/
theorem c9_conversation_write_always_denied_witness :
    IsClubMemberReadOnlyConversation.has_object_permission [mRep] "POST" uSecy conv0 = false :=
  c9_conversation_write_always_denied "POST" (by decide) [mRep] uSecy conv0

/-- C10: `IsRepClubRole` and `IsRepClubMembership` decide every method,
safe ones included, exactly by the "REP" membership-existence check; the
result never depends on the superuser flag, so a secretary without such a
membership is denied even read access. -/
theorem c10_role_membership_ignore_secretary :
    (∀ (method : String) (db : DB) (u : User) (obj : ClubRole),
      IsRepClubRole.has_object_permission db method u obj =
        repMembershipExists db u.id obj.club) ∧
    (∀ (method : String) (db : DB) (u : User) (obj : ClubMembership),
      IsRepClubMembership.has_object_permission db method u obj =
        repMembershipExists db u.id obj.club_role.club) ∧
    (∀ (method : String) (db : DB) (u : User) (b : Bool) (obj : ClubRole),
      IsRepClubRole.has_object_permission db method ⟨u.id, b⟩ obj =
        IsRepClubRole.has_object_permission db method u obj) ∧
    (∀ (method : String) (db : DB) (u : User) (b : Bool) (obj : ClubMembership),
      IsRepClubMembership.has_object_permission db method ⟨u.id, b⟩ obj =
        IsRepClubMembership.has_object_permission db method u obj) ∧
    (∀ (method : String) (db : DB) (u : User) (obj : ClubRole),
      repMembershipExists db u.id obj.club = false →
        IsRepClubRole.has_object_permission db method u obj = false) ∧
    (∀ (method : String) (db : DB) (u : User) (obj : ClubMembership),
      repMembershipExists db u.id obj.club_role.club = false →
        IsRepClubMembership.has_object_permission db method u obj = false) :=
  ⟨fun _ _ _ _ => rfl, fun _ _ _ _ => rfl, fun _ _ _ _ _ => rfl,
   fun _ _ _ _ _ => rfl, fun _ _ _ _ h => h, fun _ _ _ _ h => h⟩

/-- Witness for C10: the secretary `uSecy` holds no membership at all and is
denied a GET on the role and on the membership row of `club0`. -/
theorem c10_role_membership_ignore_secretary_witness :
    repMembershipExists [mMem] uSecy.id roleMem.club = false ∧
    IsRepClubRole.has_object_permission [mMem] "GET" uSecy roleMem = false ∧
    IsRepClubMembership.has_object_permission [mMem] "GET" uSecy mMem = false :=
  ⟨by decide,
   c10_role_membership_ignore_secretary.2.2.2.2.1 "GET" [mMem] uSecy roleMem (by decide),
   c10_role_membership_ignore_secretary.2.2.2.2.2 "GET" [mMem] uSecy mMem (by decide)⟩

/-- C8: every permission class is monotone in the set of `ClubMembership`
rows: adding rows never turns a granted request into a denied one. -/
theorem c8_monotone_in_membership_rows :
    (∀ (db1 db2 : DB), (∀ m, m ∈ db1 → m ∈ db2) →
      ∀ (method : String) (u : User) (obj : Post),
        IsRepOrReadOnlyPost.has_object_permission db1 method u obj = true →
        IsRepOrReadOnlyPost.has_object_permission db2 method u obj = true) ∧
    (∀ (db1 db2 : DB), (∀ m, m ∈ db1 → m ∈ db2) →
      ∀ (method : String) (u : User) (obj : Conversation),
        IsClubMemberReadOnlyConversation.has_object_permission db1 method u obj = true →
        IsClubMemberReadOnlyConversation.has_object_permission db2 method u obj = true) ∧
    (∀ (db1 db2 : DB), (∀ m, m ∈ db1 → m ∈ db2) →
      ∀ (method : String) (u : User) (obj : User),
        IsSelfOrReadOnlyUser.has_object_permission db1 method u obj = true →
        IsSelfOrReadOnlyUser.has_object_permission db2 method u obj = true) ∧
    (∀ (db1 db2 : DB), (∀ m, m ∈ db1 → m ∈ db2) →
      ∀ (method : String) (u : User) (obj : Club),
        IsSecyOrRepOrReadOnlyClub.has_object_permission db1 method u obj = true →
        IsSecyOrRepOrReadOnlyClub.has_object_permission db2 method u obj = true) ∧
    (∀ (db1 db2 : DB), (∀ m, m ∈ db1 → m ∈ db2) →
      ∀ (method : String) (u : User) (obj : ClubRole),
        IsRepClubRole.has_object_permission db1 method u obj = true →
        IsRepClubRole.has_object_permission db2 method u obj = true) ∧
    (∀ (db1 db2 : DB), (∀ m, m ∈ db1 → m ∈ db2) →
      ∀ (method : String) (u : User) (obj : ClubMembership),
        IsRepClubMembership.has_object_permission db1 method u obj = true →
        IsRepClubMembership.has_object_permission db2 method u obj = true) ∧
    (∀ (db1 db2 : DB), (∀ m, m ∈ db1 → m ∈ db2) →
      ∀ (method : String) (u : User) (obj : Feedback),
        IsSecyOrRepOrAuthorFeedback.has_object_permission db1 method u obj = true →
        IsSecyOrRepOrAuthorFeedback.has_object_permission db2 method u obj = true) ∧
    (∀ (db1 db2 : DB), (∀ m, m ∈ db1 → m ∈ db2) →
      ∀ (method : String) (u : User) (obj : FeedbackReply),
        IsSecyOrRepOrAuthorFeedbackReply.has_object_permission db1 method u obj = true →
        IsSecyOrRepOrAuthorFeedbackReply.has_object_permission db2 method u obj = true) ∧
    (∀ (db1 db2 : DB), (∀ m, m ∈ db1 → m ∈ db2) →
      ∀ (method : String) (u : User) (obj : Project),
        IsRepOrSecyAndClubMemberReadOnlyProject.has_object_permission db1 method u obj = true →
        IsRepOrSecyAndClubMemberReadOnlyProject.has_object_permission db2 method u obj = true) := by
  refine ⟨?_, ?_, ?_, ?_, ?_, ?_, ?_, ?_, ?_⟩ <;>
    intro db1 db2 hsub method u obj <;>
    simp only [IsRepOrReadOnlyPost.has_object_permission,
      IsClubMemberReadOnlyConversation.has_object_permission,
      IsSelfOrReadOnlyUser.has_object_permission,
      IsSecyOrRepOrReadOnlyClub.has_object_permission,
      IsRepClubRole.has_object_permission,
      IsRepClubMembership.has_object_permission,
      IsSecyOrRepOrAuthorFeedback.has_object_permission,
      IsSecyOrRepOrAuthorFeedbackReply.has_object_permission,
      IsRepOrSecyAndClubMemberReadOnlyProject.has_object_permission]
  all_goals repeat' split
  all_goals intro h
  all_goals first
    | rfl
    | exact h
    | exact membershipExists_mono hsub h
    | exact repMembershipExists_mono hsub h
    | exact membershipInExists_mono hsub h
    | exact repMembershipInExists_mono hsub h
    | (rcases Bool.or_eq_true_iff.mp h with h1 | h1
       · exact Bool.or_eq_true_iff.mpr (Or.inl h1)
       · exact Bool.or_eq_true_iff.mpr (Or.inr (repMembershipExists_mono hsub h1)))
    | (rcases Bool.or_eq_true_iff.mp h with h1 | h1
       · exact Bool.or_eq_true_iff.mpr (Or.inl h1)
       · exact Bool.or_eq_true_iff.mpr (Or.inr (membershipInExists_mono hsub h1)))

/-- Witness for C8: a member read of a conversation stays granted after a
"REP" row is added to the table. -/
theorem c8_monotone_in_membership_rows_witness :
    IsClubMemberReadOnlyConversation.has_object_permission [mMem, mRep] "GET" u0 conv0 = true :=
  c8_monotone_in_membership_rows.2.1 [mMem] [mMem, mRep]
    (by intro m hm; simp at hm; simp [hm]) "GET" u0 conv0 (by decide)

/-- Two tables agreeing on the membership rows of user `uid` in club `c`
give the same `membershipExists` answer. -/
lemma membershipExists_congr {db1 db2 : DB} {uid : Nat} {c : Club}
    (h : ∀ m : ClubMembership, m.user_id = uid → m.club_role.club = c →
      (m ∈ db1 ↔ m ∈ db2)) :
    membershipExists db1 uid c = membershipExists db2 uid c := by
  apply any_congr_relevant (fun m => m.user_id = uid ∧ m.club_role.club = c)
    (fun m hm => ?_) (fun m hr => h m hr.1 hr.2)
  simp only [Bool.and_eq_true, beq_iff_eq] at hm
  exact ⟨hm.1, Club.eq_of_id hm.2⟩

/-- Two tables agreeing on the membership rows of user `uid` in club `c`
give the same `repMembershipExists` answer. -/
lemma repMembershipExists_congr {db1 db2 : DB} {uid : Nat} {c : Club}
    (h : ∀ m : ClubMembership, m.user_id = uid → m.club_role.club = c →
      (m ∈ db1 ↔ m ∈ db2)) :
    repMembershipExists db1 uid c = repMembershipExists db2 uid c := by
  apply any_congr_relevant (fun m => m.user_id = uid ∧ m.club_role.club = c)
    (fun m hm => ?_) (fun m hr => h m hr.1 hr.2)
  simp only [Bool.and_eq_true, beq_iff_eq] at hm
  exact ⟨hm.1.1, Club.eq_of_id hm.1.2⟩

/-- Two tables agreeing on the membership rows of user `uid` in the clubs of
`cs` give the same `membershipInExists` answer. -/
lemma membershipInExists_congr {db1 db2 : DB} {uid : Nat} {cs : List Club}
    (h : ∀ m : ClubMembership, m.user_id = uid → m.club_role.club ∈ cs →
      (m ∈ db1 ↔ m ∈ db2)) :
    membershipInExists db1 uid cs = membershipInExists db2 uid cs := by
  apply any_congr_relevant (fun m => m.user_id = uid ∧ m.club_role.club ∈ cs)
    (fun m hm => ?_) (fun m hr => h m hr.1 hr.2)
  simp only [Bool.and_eq_true, beq_iff_eq, List.any_eq_true] at hm
  rcases hm with ⟨h1, c, hc, hid⟩
  exact ⟨h1, Club.eq_of_id hid ▸ hc⟩

/-- Two tables agreeing on the membership rows of user `uid` in the clubs of
`cs` give the same `repMembershipInExists` answer. -/
lemma repMembershipInExists_congr {db1 db2 : DB} {uid : Nat} {cs : List Club}
    (h : ∀ m : ClubMembership, m.user_id = uid → m.club_role.club ∈ cs →
      (m ∈ db1 ↔ m ∈ db2)) :
    repMembershipInExists db1 uid cs = repMembershipInExists db2 uid cs := by
  apply any_congr_relevant (fun m => m.user_id = uid ∧ m.club_role.club ∈ cs)
    (fun m hm => ?_) (fun m hr => h m hr.1 hr.2)
  simp only [Bool.and_eq_true, beq_iff_eq, List.any_eq_true] at hm
  rcases hm with ⟨⟨h1, c, hc, hid⟩, hp⟩
  exact ⟨h1, Club.eq_of_id hid ▸ hc⟩

/-- C6: for every permission class, the decision depends only on the method,
the requesting user, the object and the membership rows linking that user to
the club(s) associated with the object: two tables agreeing on those rows
yield the same boolean, regardless of any other rows. -/
theorem c6_decision_depends_only_on_relevant_rows :
    (∀ (method : String) (u : User) (obj : Post) (db1 db2 : DB),
      (∀ m : ClubMembership, m.user_id = u.id → m.club_role.club = obj.channel.club →
        (m ∈ db1 ↔ m ∈ db2)) →
      IsRepOrReadOnlyPost.has_object_permission db1 method u obj =
        IsRepOrReadOnlyPost.has_object_permission db2 method u obj) ∧
    (∀ (method : String) (u : User) (obj : Conversation) (db1 db2 : DB),
      (∀ m : ClubMembership, m.user_id = u.id → m.club_role.club = obj.channel.club →
        (m ∈ db1 ↔ m ∈ db2)) →
      IsClubMemberReadOnlyConversation.has_object_permission db1 method u obj =
        IsClubMemberReadOnlyConversation.has_object_permission db2 method u obj) ∧
    (∀ (method : String) (u : User) (obj : User) (db1 db2 : DB),
      IsSelfOrReadOnlyUser.has_object_permission db1 method u obj =
        IsSelfOrReadOnlyUser.has_object_permission db2 method u obj) ∧
    (∀ (method : String) (u : User) (obj : Club) (db1 db2 : DB),
      (∀ m : ClubMembership, m.user_id = u.id → m.club_role.club = obj →
        (m ∈ db1 ↔ m ∈ db2)) →
      IsSecyOrRepOrReadOnlyClub.has_object_permission db1 method u obj =
        IsSecyOrRepOrReadOnlyClub.has_object_permission db2 method u obj) ∧
    (∀ (method : String) (u : User) (obj : ClubRole) (db1 db2 : DB),
      (∀ m : ClubMembership, m.user_id = u.id → m.club_role.club = obj.club →
        (m ∈ db1 ↔ m ∈ db2)) →
      IsRepClubRole.has_object_permission db1 method u obj =
        IsRepClubRole.has_object_permission db2 method u obj) ∧
    (∀ (method : String) (u : User) (obj : ClubMembership) (db1 db2 : DB),
      (∀ m : ClubMembership, m.user_id = u.id → m.club_role.club = obj.club_role.club →
        (m ∈ db1 ↔ m ∈ db2)) →
      IsRepClubMembership.has_object_permission db1 method u obj =
        IsRepClubMembership.has_object_permission db2 method u obj) ∧
    (∀ (method : String) (u : User) (obj : Feedback) (db1 db2 : DB),
      (∀ m : ClubMembership, m.user_id = u.id → m.club_role.club = obj.club →
        (m ∈ db1 ↔ m ∈ db2)) →
      IsSecyOrRepOrAuthorFeedback.has_object_permission db1 method u obj =
        IsSecyOrRepOrAuthorFeedback.has_object_permission db2 method u obj) ∧
    (∀ (method : String) (u : User) (obj : FeedbackReply) (db1 db2 : DB),
      (∀ m : ClubMembership, m.user_id = u.id → m.club_role.club = obj.parent.club →
        (m ∈ db1 ↔ m ∈ db2)) →
      IsSecyOrRepOrAuthorFeedbackReply.has_object_permission db1 method u obj =
        IsSecyOrRepOrAuthorFeedbackReply.has_object_permission db2 method u obj) ∧
    (∀ (method : String) (u : User) (obj : Project) (db1 db2 : DB),
      (∀ m : ClubMembership, m.user_id = u.id → m.club_role.club ∈ obj.clubs →
        (m ∈ db1 ↔ m ∈ db2)) →
      IsRepOrSecyAndClubMemberReadOnlyProject.has_object_permission db1 method u obj =
        IsRepOrSecyAndClubMemberReadOnlyProject.has_object_permission db2 method u obj) := by
  refine ⟨?_, ?_, ?_, ?_, ?_, ?_, ?_, ?_, ?_⟩
  · intro method u obj db1 db2 hagree
    cases hc : SAFE_METHODS.contains method <;>
      simp only [IsRepOrReadOnlyPost.has_object_permission, hc, Bool.false_eq_true,
        if_false, if_true]
    exact repMembershipExists_congr hagree
  · intro method u obj db1 db2 hagree
    cases hc : SAFE_METHODS.contains method <;>
      simp only [IsClubMemberReadOnlyConversation.has_object_permission, hc,
        Bool.false_eq_true, if_false, if_true]
    exact membershipExists_congr hagree
  · intro method u obj db1 db2
    rfl
  · intro method u obj db1 db2 hagree
    cases hc : SAFE_METHODS.contains method <;>
      cases hd : method == "DELETE" <;>
      simp only [IsSecyOrRepOrReadOnlyClub.has_object_permission, hc, hd,
        Bool.false_eq_true, if_false, if_true]
    rw [repMembershipExists_congr hagree]
  · intro method u obj db1 db2 hagree
    exact repMembershipExists_congr hagree
  · intro method u obj db1 db2 hagree
    exact repMembershipExists_congr hagree
  · intro method u obj db1 db2 hagree
    cases hc : SAFE_METHODS.contains method <;>
      simp only [IsSecyOrRepOrAuthorFeedback.has_object_permission, hc,
        Bool.false_eq_true, if_false, if_true]
    rw [repMembershipExists_congr hagree]
  · intro method u obj db1 db2 hagree
    cases hc : SAFE_METHODS.contains method <;>
      simp only [IsSecyOrRepOrAuthorFeedbackReply.has_object_permission, hc,
        Bool.false_eq_true, if_false, if_true]
    rw [repMembershipExists_congr hagree]
  · intro method u obj db1 db2 hagree
    cases hc : SAFE_METHODS.contains method <;>
      simp only [IsRepOrSecyAndClubMemberReadOnlyProject.has_object_permission, hc,
        Bool.false_eq_true, if_false, if_true]
    · exact repMembershipInExists_congr hagree
    · rw [membershipInExists_congr hagree]

/-- Witness for C6: a write decision on a post is unchanged when a row of an
unrelated user is dropped from the table. -/
theorem c6_decision_depends_only_on_relevant_rows_witness :
    IsRepOrReadOnlyPost.has_object_permission [mRep, mOther] "PUT" u0 post0 =
      IsRepOrReadOnlyPost.has_object_permission [mRep] "PUT" u0 post0 := by
  apply c6_decision_depends_only_on_relevant_rows.1 "PUT" u0 post0
  intro m h1 h2
  constructor
  · intro hm
    rcases List.mem_cons.mp hm with he | hm2
    · simp [he]
    · simp only [List.mem_singleton] at hm2
      subst hm2
      exact absurd h1 (by decide)
  · intro hm
    simp only [List.mem_singleton] at hm
    simp [hm]

/-- Counterexample to C1: on a GET request, a user holding an ordinary
("MEM") membership of the club — so a membership row of some privilege
exists — is still denied by `IsRepClubRole`, which restricts reads to
representatives rather than to members of any privilege. -/
theorem c1_counterexample_member_read_denied :
    SAFE_METHODS.contains "GET" = true ∧
    membershipExists [mMem] u0.id roleMem.club = true ∧
    IsRepClubRole.has_object_permission [mMem] "GET" u0 roleMem = false := by
  decide

/-- C1 amended: on a safe-method request, `IsRepOrReadOnlyPost`,
`IsSelfOrReadOnlyUser` and `IsSecyOrRepOrReadOnlyClub` always return True;
the remaining classes restrict read access: conversations to club members of
any privilege, clubRoles and clubMemberships to holders of a "REP"
membership, feedback and replies to the author, a secretary or a "REP"
holder, and projects to a secretary or a member of an associated club. -/
theorem c1_amended_safe_read_characterization (method : String)
    (h : SAFE_METHODS.contains method = true) :
    (∀ (db : DB) (u : User) (obj : Post),
      IsRepOrReadOnlyPost.has_object_permission db method u obj = true) ∧
    (∀ (db : DB) (u : User) (obj : User),
      IsSelfOrReadOnlyUser.has_object_permission db method u obj = true) ∧
    (∀ (db : DB) (u : User) (obj : Club),
      IsSecyOrRepOrReadOnlyClub.has_object_permission db method u obj = true) ∧
    (∀ (db : DB) (u : User) (obj : Conversation),
      IsClubMemberReadOnlyConversation.has_object_permission db method u obj =
        membershipExists db u.id obj.channel.club) ∧
    (∀ (db : DB) (u : User) (obj : ClubRole),
      IsRepClubRole.has_object_permission db method u obj =
        repMembershipExists db u.id obj.club) ∧
    (∀ (db : DB) (u : User) (obj : ClubMembership),
      IsRepClubMembership.has_object_permission db method u obj =
        repMembershipExists db u.id obj.club_role.club) ∧
    (∀ (db : DB) (u : User) (obj : Feedback),
      IsSecyOrRepOrAuthorFeedback.has_object_permission db method u obj =
        (User.beq obj.author u || is_secretary u ||
          repMembershipExists db u.id obj.club)) ∧
    (∀ (db : DB) (u : User) (obj : FeedbackReply),
      IsSecyOrRepOrAuthorFeedbackReply.has_object_permission db method u obj =
        (User.beq obj.parent.author u || is_secretary u ||
          repMembershipExists db u.id obj.parent.club)) ∧
    (∀ (db : DB) (u : User) (obj : Project),
      IsRepOrSecyAndClubMemberReadOnlyProject.has_object_permission db method u obj =
        (is_secretary u || membershipInExists db u.id obj.clubs)) := by
  have hmem : method ∈ SAFE_METHODS := by simpa using h
  refine ⟨?_, ?_, ?_, ?_, ?_, ?_, ?_, ?_, ?_⟩ <;> intro db u obj <;>
    simp [IsRepOrReadOnlyPost.has_object_permission,
      IsSelfOrReadOnlyUser.has_object_permission,
      IsSecyOrRepOrReadOnlyClub.has_object_permission,
      IsClubMemberReadOnlyConversation.has_object_permission,
      IsRepClubRole.has_object_permission,
      IsRepClubMembership.has_object_permission,
      IsSecyOrRepOrAuthorFeedback.has_object_permission,
      IsSecyOrRepOrAuthorFeedbackReply.has_object_permission,
      IsRepOrSecyAndClubMemberReadOnlyProject.has_object_permission, hmem]

/-- Witness for the amended C1: on a GET, `IsRepClubRole` answers exactly
the representative-membership check. -/
theorem c1_amended_safe_read_characterization_witness :
    IsRepClubRole.has_object_permission [mMem] "GET" u0 roleMem =
      repMembershipExists [mMem] u0.id roleMem.club :=
  (c1_amended_safe_read_characterization "GET" (by decide)).2.2.2.2.1 [mMem] u0 roleMem

/-- Counterexample to C2: a PUT on a user object by that same user is
granted by `IsSelfOrReadOnlyUser` although the table is empty (it holds no
"REP" membership row at all) and the user is not a secretary. -/
theorem c2_counterexample_self_write_granted :
    SAFE_METHODS.contains "PUT" = false ∧
    is_secretary u0 = false ∧
    hasAnyRepRow [] = false ∧
    IsSelfOrReadOnlyUser.has_object_permission [] "PUT" u0 u0 = true := by
  decide

/-- C2 amended: a non-safe-method request is granted only if the requesting
user holds a "REP" membership in a club owning the object, or, for
club-level resources, is a secretary, or, for user resources, is the target
object; conversations, feedback and replies admit no writes at all. -/
theorem c2_amended_write_only_if (method : String)
    (h : SAFE_METHODS.contains method = false) :
    (∀ (db : DB) (u : User) (obj : Post),
      IsRepOrReadOnlyPost.has_object_permission db method u obj = true →
        repMembershipExists db u.id obj.channel.club = true) ∧
    (∀ (db : DB) (u : User) (obj : Conversation),
      IsClubMemberReadOnlyConversation.has_object_permission db method u obj = false) ∧
    (∀ (db : DB) (u : User) (obj : User),
      IsSelfOrReadOnlyUser.has_object_permission db method u obj = true →
        User.beq obj u = true) ∧
    (∀ (db : DB) (u : User) (obj : Club),
      IsSecyOrRepOrReadOnlyClub.has_object_permission db method u obj = true →
        is_secretary u = true ∨ repMembershipExists db u.id obj = true) ∧
    (∀ (db : DB) (u : User) (obj : ClubRole),
      IsRepClubRole.has_object_permission db method u obj = true →
        repMembershipExists db u.id obj.club = true) ∧
    (∀ (db : DB) (u : User) (obj : ClubMembership),
      IsRepClubMembership.has_object_permission db method u obj = true →
        repMembershipExists db u.id obj.club_role.club = true) ∧
    (∀ (db : DB) (u : User) (obj : Feedback),
      IsSecyOrRepOrAuthorFeedback.has_object_permission db method u obj = false) ∧
    (∀ (db : DB) (u : User) (obj : FeedbackReply),
      IsSecyOrRepOrAuthorFeedbackReply.has_object_permission db method u obj = false) ∧
    (∀ (db : DB) (u : User) (obj : Project),
      IsRepOrSecyAndClubMemberReadOnlyProject.has_object_permission db method u obj = true →
        repMembershipInExists db u.id obj.clubs = true) := by
  have hmem : ¬ method ∈ SAFE_METHODS := by simpa using h
  refine ⟨?_, ?_, ?_, ?_, ?_, ?_, ?_, ?_, ?_⟩ <;> intro db u obj
  · simp [IsRepOrReadOnlyPost.has_object_permission, hmem]
  · simp [IsClubMemberReadOnlyConversation.has_object_permission, hmem]
  · simp [IsSelfOrReadOnlyUser.has_object_permission, hmem]
  · cases hd : method == "DELETE"
    · simp [IsSecyOrRepOrReadOnlyClub.has_object_permission, hmem, hd]
    · simp [IsSecyOrRepOrReadOnlyClub.has_object_permission, hmem, hd]
      exact fun hc => Or.inl hc
  · exact fun hc => hc
  · exact fun hc => hc
  · simp [IsSecyOrRepOrAuthorFeedback.has_object_permission, hmem]
  · simp [IsSecyOrRepOrAuthorFeedbackReply.has_object_permission, hmem]
  · simp [IsRepOrSecyAndClubMemberReadOnlyProject.has_object_permission, hmem]

/-- Witness for the amended C2: `u0`, representative of `club0`, is granted
a PUT on `post0`, and indeed the representative row is present. -/
theorem c2_amended_write_only_if_witness :
    repMembershipExists [mRep] u0.id post0.channel.club = true :=
  (c2_amended_write_only_if "PUT" (by decide)).1 [mRep] u0 post0 (by decide)

/-- Counterexample to C5: the write decision of `IsSelfOrReadOnlyUser` for a
user editing their own record is not a disjunction of one or two
membership-existence checks — it is true on the empty table, where every
membership-existence check is false. -/
theorem c5_counterexample_self_write_not_membership_disjunction :
    SAFE_METHODS.contains "PUT" = false ∧
    ¬ isMembershipDisjunction selfWriteDecision := by
  refine ⟨by decide, ?_⟩
  rintro ⟨qs, h1, h2, hall⟩
  have h0 := hall []
  have hsd : selfWriteDecision [] = true := by decide
  rw [hsd] at h0
  rcases List.any_eq_true.mp h0.symm with ⟨q, hq, hqe⟩
  simp [MemQuery.eval] at hqe

/-- C5 amended: for every permission class and non-safe method, the write
decision is the disjunction of at most two atoms, each a
membership-existence check against (user, club, role) rows, a secretary
(superuser-flag) check, or an identity comparison with the requesting user. -/
theorem c5_amended_write_decision_atom_shape (method : String)
    (h : SAFE_METHODS.contains method = false) :
    (∀ (u : User) (obj : Post), isAtomDisjunction
      (fun db => IsRepOrReadOnlyPost.has_object_permission db method u obj)) ∧
    (∀ (u : User) (obj : Conversation), isAtomDisjunction
      (fun db => IsClubMemberReadOnlyConversation.has_object_permission db method u obj)) ∧
    (∀ (u : User) (obj : User), isAtomDisjunction
      (fun db => IsSelfOrReadOnlyUser.has_object_permission db method u obj)) ∧
    (∀ (u : User) (obj : Club), isAtomDisjunction
      (fun db => IsSecyOrRepOrReadOnlyClub.has_object_permission db method u obj)) ∧
    (∀ (u : User) (obj : ClubRole), isAtomDisjunction
      (fun db => IsRepClubRole.has_object_permission db method u obj)) ∧
    (∀ (u : User) (obj : ClubMembership), isAtomDisjunction
      (fun db => IsRepClubMembership.has_object_permission db method u obj)) ∧
    (∀ (u : User) (obj : Feedback), isAtomDisjunction
      (fun db => IsSecyOrRepOrAuthorFeedback.has_object_permission db method u obj)) ∧
    (∀ (u : User) (obj : FeedbackReply), isAtomDisjunction
      (fun db => IsSecyOrRepOrAuthorFeedbackReply.has_object_permission db method u obj)) ∧
    (∀ (u : User) (obj : Project), isAtomDisjunction
      (fun db => IsRepOrSecyAndClubMemberReadOnlyProject.has_object_permission db method u obj)) := by
  have hmem : ¬ method ∈ SAFE_METHODS := by simpa using h
  refine ⟨?_, ?_, ?_, ?_, ?_, ?_, ?_, ?_, ?_⟩ <;> intro u obj
  · exact ⟨[.memCheck ⟨u.id, [obj.channel.club], some "REP"⟩], by norm_num, fun db => by
      simp [IsRepOrReadOnlyPost.has_object_permission, hmem, DecisionAtom.eval,
        MemQuery.eval_single_rep]⟩
  · exact ⟨[], by norm_num, fun db => by
      simp [IsClubMemberReadOnlyConversation.has_object_permission, hmem]⟩
  · exact ⟨[.selfCheck obj u], by norm_num, fun db => by
      simp [IsSelfOrReadOnlyUser.has_object_permission, hmem, DecisionAtom.eval]⟩
  · cases hd : method == "DELETE"
    · exact ⟨[.secyCheck u, .memCheck ⟨u.id, [obj], some "REP"⟩], by norm_num, fun db => by
        simp [IsSecyOrRepOrReadOnlyClub.has_object_permission, hmem, hd,
          DecisionAtom.eval, MemQuery.eval_single_rep]⟩
    · exact ⟨[.secyCheck u], by norm_num, fun db => by
        simp [IsSecyOrRepOrReadOnlyClub.has_object_permission, hmem, hd,
          DecisionAtom.eval]⟩
  · exact ⟨[.memCheck ⟨u.id, [obj.club], some "REP"⟩], by norm_num, fun db => by
      simp [IsRepClubRole.has_object_permission, DecisionAtom.eval,
        MemQuery.eval_single_rep]⟩
  · exact ⟨[.memCheck ⟨u.id, [obj.club_role.club], some "REP"⟩], by norm_num, fun db => by
      simp [IsRepClubMembership.has_object_permission, DecisionAtom.eval,
        MemQuery.eval_single_rep]⟩
  · exact ⟨[], by norm_num, fun db => by
      simp [IsSecyOrRepOrAuthorFeedback.has_object_permission, hmem]⟩
  · exact ⟨[], by norm_num, fun db => by
      simp [IsSecyOrRepOrAuthorFeedbackReply.has_object_permission, hmem]⟩
  · exact ⟨[.memCheck ⟨u.id, obj.clubs, some "REP"⟩], by norm_num, fun db => by
      simp [IsRepOrSecyAndClubMemberReadOnlyProject.has_object_permission, hmem,
        DecisionAtom.eval, MemQuery.eval_multi_rep]⟩

/-- Witness for the amended C5: the write decision on `post0` for `u0` is an
atom disjunction. -/
theorem c5_amended_write_decision_atom_shape_witness :
    isAtomDisjunction postWriteDecision :=
  (c5_amended_write_decision_atom_shape "PUT" (by decide)).1 u0 post0

end ClubNet
